import Mathlib

/-!
Verification development for the insta-repo application (src/insta_repo.py):
a resume / cover-letter / portfolio builder whose core is a retry-protected
generation client, prompt builders, merge handlers writing generated text
back into the document, and deterministic compilers to plain text and markup.

The Python session dictionary st.session_state.data is embedded as the
structure Document below; the remote generation service is abstracted as an
oracle giving the outcome of each attempt; handlers become pure functions
from the document (and the generation oracle) to the updated document plus
the observable effects the claims mention (warnings, number of service
calls).
-/

namespace InstaRepo

/-! ## Data model (st.session_state.data, src/insta_repo.py lines 26-50) -/

/-- The personal sub-record: name, email, phone, linkedin. -/
structure Personal where
  name : String
  email : String
  phone : String
  linkedin : String
deriving DecidableEq

/-- An education entry: id, institution, degree, dates (line 36). -/
structure EducationEntry where
  id : Nat
  institution : String
  degree : String
  dates : String
deriving DecidableEq

/-- An experience entry: id, title, company, dates, raw multi-line bullets (line 39). -/
structure ExperienceEntry where
  id : Nat
  title : String
  company : String
  dates : String
  bullets : String
deriving DecidableEq

/-- A portfolio entry: id, name, link, description (line 43). -/
structure PortfolioEntry where
  id : Nat
  name : String
  link : String
  description : String
deriving DecidableEq

/-- The cover-letter inputs sub-record: target company and target job title (line 45). -/
structure CoverLetterInputs where
  company : String
  title : String
deriving DecidableEq

/-- The whole document aggregate, mirroring the keys of st.session_state.data.
Ids are Python numbers (int 1 initially, time.time() for later entries);
they are embedded as Nat, which preserves everything the code does with
them, namely equality tests. -/
structure Document where
  personal : Personal
  summary : String
  education : List EducationEntry
  experience : List ExperienceEntry
  skills : List String
  portfolio : List PortfolioEntry
  cover_letter_inputs : CoverLetterInputs
  cover_letter_draft : String
deriving DecidableEq

/-- Fixed section order, line 53 of the source. -/
def SECTION_ORDER : List String := ["summary", "skills", "portfolio", "experience", "education"]

/-- The initial session document (lines 27-47 of the source). -/
def initial_data : Document :=
  { personal :=
      { name := "Student Name"
        email := "email@example.com"
        phone := "123-456-7890"
        linkedin := "https//linkedin/profile" }
    summary := "A highly motivated student seeking a challenging internship in AI and Cloud computing, leveraging strong foundational skills in Python and machine learning to drive impactful project execution."
    education :=
      [{ id := 1, institution := "University/College Name", degree := "B.Tech/B.Sc in Computer Science", dates := "2021 - 2025" }]
    experience :=
      [{ id := 1, title := "AI and Cloud Intern", company := "Edunet/IBM SkillsBuild", dates := "June 2024 - Present",
         bullets := "Successfully completed AI and Cloud internship project.\nGained hands-on experience with cloud services and generative AI tools.\nApplied Python and data analysis techniques to optimize project outcomes." }]
    skills := ["Python", "Cloud Computing (IBM/AWS/Azure)", "Generative AI", "Data Analysis", "Web Development (React/JS)"]
    portfolio :=
      [{ id := 1, name := "AI Resume Builder Project", link := "https://github.com/my-project",
         description := "Developed an AI tool to generate and optimize resumes and portfolios using Gemini API for content refinement." }]
    cover_letter_inputs := { company := "", title := "" }
    cover_letter_draft := "" }

/-! ## Python string primitives

The handlers use four Python string methods: strip, split, startswith and
upper. They are embedded as structurally recursive functions over the
character list of the string, so that every proof obligation about them can
be evaluated by the kernel. (The splits in the source are on the one-column
separators comma and newline, so split takes a character.) -/

/-- Helper for split: cut a character list at every occurrence of the
separator; the result is always non-empty, like Python split. -/
def splitChar (c : Char) : List Char → List (List Char)
  | [] => [[]]
  | x :: xs =>
    match splitChar c xs with
    | [] => [[]]
    | h :: t => if x = c then [] :: h :: t else (x :: h) :: t

/-- Python s.split(c) for a one-character separator. -/
def py_split (c : Char) (s : String) : List String :=
  (splitChar c s.data).map String.mk

/-- Python s.strip(): drop leading and trailing whitespace. -/
def py_strip (s : String) : String :=
  String.mk (((s.data.dropWhile Char.isWhitespace).reverse.dropWhile Char.isWhitespace).reverse)

/-- Python s.startswith(p). -/
def py_startswith (s p : String) : Bool :=
  p.data.isPrefixOf s.data

/-- Python s.upper(). -/
def py_upper (s : String) : String :=
  String.mk (s.data.map Char.toUpper)

/-! ## Generation client (generate_content_with_ai, lines 76-106)

The remote service is abstracted as an oracle mapping the attempt number to
the outcome the try block observes on that attempt: a successful response
text, an APIError whose message contains 429 (rate limited), any other
APIError, or a non-APIError exception. The client returns the result string
together with the number of attempts issued. -/

/-- Outcome of one attempt of the try block, as classified by the two
except clauses of generate_content_with_ai. -/
inductive CallOutcome where
  | success (text : String)
  | rateLimited
  | apiError
  | otherError
deriving DecidableEq

/-- MAX_RETRIES = 5, line 77. -/
def MAX_RETRIES : Nat := 5

/-- Error string returned on line 81 when the client is not initialized. -/
def client_init_error : String := "Error: Gemini client not initialized. Check API Key configuration."

/-- Error string returned on line 102 for terminal APIError failures. -/
def connect_error : String := "Error: Could not connect to AI service or API key is invalid."

/-- Error string returned on line 106 for non-APIError exceptions. -/
def unexpected_error : String := "Error: An unexpected error occurred during AI generation."

/-- The attempt loop of generate_content_with_ai (lines 83-106): attempt
counts from 0; a rate-limited failure retries (after a backoff sleep, not
modelled) while attempt < MAX_RETRIES - 1, every other branch returns.
The second component is the total number of attempts issued. -/
def genAttempts (oracle : Nat → CallOutcome) (attempt : Nat) : String × Nat :=
  match oracle attempt with
  | CallOutcome.success t => (py_strip t, attempt + 1)
  | CallOutcome.rateLimited =>
      if h : attempt < MAX_RETRIES - 1 then genAttempts oracle (attempt + 1)
      else (connect_error, attempt + 1)
  | CallOutcome.apiError => (connect_error, attempt + 1)
  | CallOutcome.otherError => (unexpected_error, attempt + 1)
termination_by MAX_RETRIES - attempt
decreasing_by simp only [MAX_RETRIES] at *; omega

/-- generate_content_with_ai (lines 79-106). clientOk is whether
get_gemini_client returned a client; the prompt and the system instruction
are forwarded to the service (consumed by the oracle at the transport
boundary, which the embedding abstracts away). Returns the result string
and the number of attempts issued. -/
def generate_content_with_ai (clientOk : Bool) (oracle : Nat → CallOutcome)
    (prompt : String) (system_instruction : String) : String × Nat :=
  if clientOk then genAttempts oracle 0 else (client_init_error, 0)

/-! ## Prompt builders and merge handlers (lines 110-218)

Each handler is embedded as a function of the document and a generation
function gen : prompt -> system instruction -> result string, which stands
for generate_content_with_ai with the client and network fixed. Where a
claim talks about the number of service calls, the handler result carries
that count, mirroring which code paths reach the generate call. -/

/-- System instruction of handle_generate_summary, line 114. -/
def summary_system_instruction : String :=
  "You are a world-class resume writer. Generate a concise, 3-4 sentence professional summary based on the provided experience and education. Use strong action verbs and highlight key skills (AI, Cloud, Python, Web Dev). Do not include any introductory phrases, just the summary text."

/-- User prompt of handle_generate_summary, lines 116-119. -/
def summary_user_prompt (doc : Document) : String :=
  let education_text := String.intercalate "; "
    (doc.education.map (fun e => e.degree ++ " from " ++ e.institution))
  let experience_text := String.intercalate "; "
    (doc.experience.map (fun e => e.title ++ " at " ++ e.company ++ ". Key points: " ++ e.bullets))
  "Generate a summary for the following: \n\nEducation: " ++ education_text
    ++ "\n\nExperience: " ++ experience_text

/-- handle_generate_summary (lines 110-123): stores the generation result
into the summary field unconditionally (line 122). -/
def handle_generate_summary (gen : String → String → String) (doc : Document) : Document :=
  let result := gen (summary_user_prompt doc) summary_system_instruction
  { doc with summary := result }

/-- System instruction of handle_suggest_skills, line 130. -/
def suggest_skills_system_instruction : String :=
  "You are an AI career coach. Based on the user\x27s current skills and their AI/Cloud internship focus, suggest 5-8 additional, relevant, high-demand skills that they should include. Provide the new skills as a comma-separated list ONLY, with no introductory text or numbering. Examples: Kubernetes, DevOps, PostgreSQL, Agile Methodology."

/-- User prompt of handle_suggest_skills, line 131. -/
def suggest_skills_user_prompt (doc : Document) : String :=
  "Current Skills: " ++ String.intercalate ", " doc.skills ++ "\nFocus: AI and Cloud Intern"

/-- The token parsing of line 136: split the result on commas, trim each
token, drop the tokens that are empty after trimming. -/
def parse_skills (result : String) : List String :=
  ((py_split ',' result).map py_strip).filter (fun s => s ≠ "")

/-- handle_suggest_skills (lines 125-141). On a result that does not start
with Error, the new skills list is merged with the old one through Python
set union (line 138: list(set(old) | set(new))); the set union is embedded
as dedup of the concatenation, which realizes the same underlying set (the
Python order of list(set(...)) is unspecified, and every claim proved below
about the merged skills is order-independent). -/
def handle_suggest_skills (gen : String → String → String) (doc : Document) : Document :=
  let result := gen (suggest_skills_user_prompt doc) suggest_skills_system_instruction
  if py_startswith result "Error" then doc
  else { doc with skills := (doc.skills ++ parse_skills result).dedup }

/-- System instruction of the experience branch of handle_refine_bullets, line 161. -/
def refine_experience_system_instruction : String :=
  "You are an expert resume optimizer. Rewrite the following raw achievement points into 3-5 professional, high-impact bullet points. Each point must start with a strong action verb and include quantifiable results where possible. Return only the bullet points, each separated by a newline."

/-- User prompt of the experience branch of handle_refine_bullets, line 162. -/
def refine_experience_user_prompt (item : ExperienceEntry) : String :=
  "Title: " ++ item.title ++ "\nRaw Points:\n" ++ item.bullets

/-- System instruction of the portfolio branch of handle_refine_bullets, line 164. -/
def refine_portfolio_system_instruction : String :=
  "You are a professional portfolio project describer. Write a concise, one-sentence description for a technical portfolio project. Focus on the tools used, the problem solved, and the impact. Return only the single sentence description."

/-- User prompt of the portfolio branch of handle_refine_bullets, line 165. -/
def refine_portfolio_user_prompt (item : PortfolioEntry) : String :=
  "Project Name: " ++ item.name ++ "\nExisting Description (if any): " ++ item.description

/-- Observable outcome of a refinement handler: the updated document,
whether the warning of line 156 (No raw input to refine) was emitted, and
how many generation-service calls were issued. -/
structure HandlerResult where
  doc : Document
  warned : Bool
  calls : Nat
deriving DecidableEq

/-- handle_refine_bullets with section = experience (lines 143-182):
look up the first experience entry whose id equals the argument (line 147);
if there is none or its bullets are empty, warn and stop with no service
call (lines 155-158); otherwise call the service and, when the result does
not start with Error, rebuild the experience list replacing the bullets of
every entry whose id matches (lines 170-175). -/
def handle_refine_bullets_experience (gen : String → String → String)
    (doc : Document) (id : Nat) : HandlerResult :=
  match doc.experience.find? (fun e => e.id == id) with
  | none => { doc := doc, warned := true, calls := 0 }
  | some item =>
    if item.bullets = "" then { doc := doc, warned := true, calls := 0 }
    else
      let result := gen (refine_experience_user_prompt item) refine_experience_system_instruction
      if py_startswith result "Error" then { doc := doc, warned := false, calls := 1 }
      else
        { doc := { doc with experience :=
            doc.experience.map (fun e => if e.id == id then { e with bullets := result } else e) }
          warned := false, calls := 1 }

/-- handle_refine_bullets with section = portfolio (lines 143-182), the
mirror of the experience branch on the description field (lines 150-153,
176-180). -/
def handle_refine_bullets_portfolio (gen : String → String → String)
    (doc : Document) (id : Nat) : HandlerResult :=
  match doc.portfolio.find? (fun p => p.id == id) with
  | none => { doc := doc, warned := true, calls := 0 }
  | some item =>
    if item.description = "" then { doc := doc, warned := true, calls := 0 }
    else
      let result := gen (refine_portfolio_user_prompt item) refine_portfolio_system_instruction
      if py_startswith result "Error" then { doc := doc, warned := false, calls := 1 }
      else
        { doc := { doc with portfolio :=
            doc.portfolio.map (fun p => if p.id == id then { p with description := result } else p) }
          warned := false, calls := 1 }

/-- Validation message written to the draft on line 191. -/
def cover_letter_validation_message : String :=
  "Error: Please enter both Target Company and Job Title."

/-- Progress placeholder written to the draft on line 212, before the call. -/
def cover_letter_placeholder : String := "Generating professional cover letter draft..."

/-- System instruction of handle_generate_cover_letter, line 195. -/
def cover_letter_system_instruction : String :=
  "You are a highly skilled professional cover letter writer. Draft a formal, three-paragraph cover letter using the provided resume data, tailored for the specific job title and company. The tone must be professional and enthusiastic, highlighting how the candidate\x27s experience (especially AI/Cloud) directly benefits the target company. Use proper salutations."

/-- User prompt of handle_generate_cover_letter, lines 197-211. -/
def cover_letter_user_prompt (doc : Document) : String :=
  let experience_text := String.intercalate "\n- "
    (doc.experience.map (fun e =>
      e.title ++ " at " ++ e.company ++ " (" ++ e.dates ++ "): " ++ e.bullets))
  "Draft a cover letter for the following job application:\n\nTarget Company: "
    ++ doc.cover_letter_inputs.company
    ++ "\nTarget Job Title: " ++ doc.cover_letter_inputs.title
    ++ "\nCandidate Name: " ++ doc.personal.name
    ++ "\nCandidate Email: " ++ doc.personal.email
    ++ "\nCandidate LinkedIn: " ++ doc.personal.linkedin
    ++ "\nCandidate Professional Summary: " ++ doc.summary
    ++ "\nCandidate Relevant Experience (Key Points): \n- " ++ experience_text ++ "\n"

/-- handle_generate_cover_letter (lines 185-218): if the target company or
the target title is empty, write the validation message into the draft and
stop with no service call (lines 190-193); otherwise overwrite the draft
with the progress placeholder (line 212), call the service, and overwrite
the draft with the result only when it does not start with Error
(lines 215-216). The second component counts service calls. -/
def handle_generate_cover_letter (gen : String → String → String)
    (doc : Document) : Document × Nat :=
  if doc.cover_letter_inputs.company = "" ∨ doc.cover_letter_inputs.title = "" then
    ({ doc with cover_letter_draft := cover_letter_validation_message }, 0)
  else
    let doc1 := { doc with cover_letter_draft := cover_letter_placeholder }
    let result := gen (cover_letter_user_prompt doc) cover_letter_system_instruction
    if py_startswith result "Error" then (doc1, 1)
    else ({ doc1 with cover_letter_draft := result }, 1)

/-! ## Plain-text compiler (compile_resume_text, lines 339-393) -/

/-- The lines list built by compile_resume_text before joining: header
block (name uppercased, equals-sign underline, contact lines, a blank
element of two newlines), then one labeled block per key of SECTION_ORDER.
Experience bullets are split on newlines and each non-blank line is
re-emitted trimmed with a dash (lines 380-382). -/
def resumeLines (d : Document) : List String :=
  [py_upper d.personal.name,
   String.mk (List.replicate d.personal.name.length '='),
   "Email: " ++ d.personal.email,
   "Phone: " ++ d.personal.phone,
   "LinkedIn: " ++ d.personal.linkedin,
   "\n\n"]
  ++ ["PROFESSIONAL SUMMARY", "--------------------", d.summary, "\n"]
  ++ ["SKILLS", "------", "Technical Skills: " ++ String.intercalate ", " d.skills, "\n"]
  ++ ["PROJECTS", "--------"]
  ++ (d.portfolio.map (fun proj =>
        [proj.name ++ " (" ++ proj.link ++ ")", "  - " ++ proj.description])).flatten
  ++ ["\n"]
  ++ ["EXPERIENCE", "----------"]
  ++ (d.experience.map (fun exp =>
        [exp.title ++ ", " ++ exp.company, "  Dates: " ++ exp.dates]
        ++ ((py_split '\n' exp.bullets).filter (fun b => py_strip b ≠ "")).map
             (fun b => "  - " ++ py_strip b))).flatten
  ++ ["\n"]
  ++ ["EDUCATION", "---------"]
  ++ (d.education.map (fun edu =>
        [edu.degree ++ ", " ++ edu.institution, "  Dates: " ++ edu.dates])).flatten
  ++ ["\n"]

/-- compile_resume_text (lines 339-393): join the lines with newlines and
strip the result. -/
def compile_resume_text (d : Document) : String :=
  py_strip (String.intercalate "\n" (resumeLines d))

/-! ## Entry lifecycle (render_array_section, lines 277-335)

The add button appends a fresh dictionary whose id is the current clock
reading, time.time() (line 331); the remove button pops the entry at the
displayed index (line 327). Only the ids matter to the uniqueness claim,
so the state is embedded as the list of ids of one section, and the clock
is an explicit input of each add operation. -/

/-- One user operation on a section list: add a new entry stamped with the
given clock reading, or remove the entry at a display index. -/
inductive EntryOp where
  | add (clock : Nat)
  | removeAt (i : Nat)
deriving DecidableEq

/-- Effect of one operation on the ids of a section (lines 327 and 330-335):
add appends at the end, remove pops the given index. -/
def applyOp (ids : List Nat) : EntryOp → List Nat
  | EntryOp.add c => ids ++ [c]
  | EntryOp.removeAt i => ids.eraseIdx i

/-- Effect of a sequence of operations, applied left to right. -/
def applyOps (ids : List Nat) : List EntryOp → List Nat
  | [] => ids
  | op :: rest => applyOps (applyOp ids op) rest

/-- The clock readings consumed by the add operations of a sequence, in order. -/
def addClocks : List EntryOp → List Nat
  | [] => []
  | EntryOp.add c :: rest => c :: addClocks rest
  | EntryOp.removeAt _ :: rest => addClocks rest

/-! ## Theme-aware preview markup (render_preview, lines 530-626)

The Streamlit preview emits the header fragment and then one fragment per
key of SECTION_ORDER through st.markdown; the embedding concatenates the
emitted fragments into one markup string, a pure function of the document
and the theme string. -/

/-- The five palette colors selected on lines 534-545, in source naming. -/
structure ThemeColors where
  BG_COLOR : String
  TEXT_COLOR : String
  ACCENT_COLOR : String
  SUB_TEXT_COLOR : String
  BORDER_COLOR : String
deriving DecidableEq

/-- Palette selection of render_preview (lines 532-545): the dark palette
when the theme string is dark, the light palette otherwise. -/
def preview_theme_colors (theme : String) : ThemeColors :=
  if theme = "dark" then
    { BG_COLOR := "#1f2937", TEXT_COLOR := "#f3f4f6", ACCENT_COLOR := "#60a5fa",
      SUB_TEXT_COLOR := "#9ca3af", BORDER_COLOR := "#374151" }
  else
    { BG_COLOR := "#ffffff", TEXT_COLOR := "#1f2937", ACCENT_COLOR := "#1e40af",
      SUB_TEXT_COLOR := "#6b7280", BORDER_COLOR := "#e5e7eb" }

/-- format_resume_section (lines 548-607): the markup fragment of one
section key, wrapped in the themed container div. -/
def format_resume_section (theme : String) (key : String) (d : Document) : String :=
  let c := preview_theme_colors theme
  let sectionTitle := fun (t : String) =>
    "<h3 style=\"border-bottom: 2px solid " ++ c.ACCENT_COLOR ++ "; padding-bottom: 5px; margin-bottom: 10px; color: " ++ c.ACCENT_COLOR ++ "; font-size: 16px;\">" ++ t ++ "</h3>"
  let body :=
    if key = "summary" then
      sectionTitle "PROFESSIONAL SUMMARY"
        ++ "<p style=\"font-size: 14px; line-height: 1.5; color: " ++ c.TEXT_COLOR ++ ";\">" ++ d.summary ++ "</p>"
    else if key = "skills" then
      sectionTitle "SKILLS"
        ++ "<p style=\"font-size: 14px; color: " ++ c.TEXT_COLOR ++ ";\"><b>Technical Skills:</b> " ++ String.intercalate ", " d.skills ++ "</p>"
    else if key = "portfolio" then
      sectionTitle "PROJECTS"
        ++ String.join (d.portfolio.map (fun proj =>
             "\n                    <div style=\"margin-bottom: 10px;\">\n                        <a href=\"" ++ proj.link ++ "\" target=\"_blank\" style=\"font-weight: bold; color: " ++ c.ACCENT_COLOR ++ "; text-decoration: none;\">" ++ proj.name ++ "</a>\n                        <p style=\"font-size: 12px; color: " ++ c.SUB_TEXT_COLOR ++ ";\">" ++ proj.link ++ "</p>\n                        <p style=\"font-size: 14px; color: " ++ c.TEXT_COLOR ++ ";\">" ++ proj.description ++ "</p>\n                    </div>\n                    "))
    else if key = "experience" then
      sectionTitle "EXPERIENCE"
        ++ String.join (d.experience.map (fun exp =>
             let bullet_list_items := String.join
               (((py_split '\n' exp.bullets).filter (fun b => py_strip b ≠ "")).map
                 (fun b => "<li>" ++ py_strip b ++ "</li>"))
             "\n                <div style=\"margin-bottom: 15px;\">\n                    <div style=\"display: flex; justify-content: space-between;\">\n                        <span style=\"font-weight: bold; color: " ++ c.TEXT_COLOR ++ ";\">" ++ exp.title ++ "</span>\n                        <span style=\"font-size: 12px; color: " ++ c.SUB_TEXT_COLOR ++ ";\">" ++ exp.dates ++ "</span>\n                    </div>\n                    <p style=\"font-size: 14px; font-style: italic; color: " ++ c.SUB_TEXT_COLOR ++ ";\">" ++ exp.company ++ "</p>\n                    <ul style=\"margin-left: 20px; list-style-type: disc; font-size: 14px; color: " ++ c.TEXT_COLOR ++ ";\">\n                        " ++ bullet_list_items ++ "\n                    </ul>\n                </div>\n                "))
    else if key = "education" then
      sectionTitle "EDUCATION"
        ++ String.join (d.education.map (fun edu =>
             "\n                <div style=\"margin-bottom: 10px;\">\n                    <div style=\"display: flex; justify-content: space-between;\">\n                        <span style=\"font-weight: bold; color: " ++ c.TEXT_COLOR ++ ";\">" ++ edu.degree ++ "</span>\n                        <span style=\"font-size: 12px; color: " ++ c.SUB_TEXT_COLOR ++ ";\">" ++ edu.dates ++ "</span>\n                    </div>\n                    <p style=\"font-size: 14px; font-style: italic; color: " ++ c.SUB_TEXT_COLOR ++ ";\">" ++ edu.institution ++ "</p>\n                </div>\n                "))
    else ""
  "<div style=\"margin-bottom: 20px; background-color: " ++ c.BG_COLOR ++ "; color: " ++ c.TEXT_COLOR ++ "; padding: 10px; border: 1px solid " ++ c.BORDER_COLOR ++ ";\">" ++ body ++ "</div>"

/-- The header fragment of render_preview (lines 610-620). -/
def preview_header_html (theme : String) (d : Document) : String :=
  let c := preview_theme_colors theme
  "\n    <div style=\"text-align: center; border-bottom: 4px solid " ++ c.ACCENT_COLOR ++ "; padding-bottom: 15px; margin-bottom: 20px; background-color: " ++ c.BG_COLOR ++ "; color: " ++ c.TEXT_COLOR ++ ";\">\n        <h1 style=\"font-size: 32px; font-weight: 800; margin-bottom: 5px;\">\n            <a href=\"" ++ d.personal.linkedin ++ "\" target=\"_blank\" style=\"color: " ++ c.ACCENT_COLOR ++ "; text-decoration: none;\">" ++ d.personal.name ++ "</a>\n        </h1>\n        <p style=\"font-size: 14px; color: " ++ c.SUB_TEXT_COLOR ++ ";\">\n            " ++ d.personal.email ++ " | " ++ d.personal.phone ++ " | \n            <a href=\"" ++ d.personal.linkedin ++ "\" target=\"_blank\" style=\"color: " ++ c.ACCENT_COLOR ++ "; text-decoration: none;\">LinkedIn</a>\n        </p>\n    </div>\n    "

/-- render_preview (lines 530-626): the header fragment followed by the
per-section fragments, in SECTION_ORDER. -/
def render_preview (d : Document) (theme : String) : String :=
  preview_header_html theme d
    ++ String.join (SECTION_ORDER.map (fun key => format_resume_section theme key d))

/-! ## Portfolio site markup (generate_portfolio_html, lines 395-490) -/

/-- The standalone portfolio page built on lines 399-488: header with name
and contact, about section from the summary, skill badges, project grid,
education list; the experience and cover-letter sections are not embedded
in this page by design. Literal braces of the emitted stylesheet are
written with character escapes. -/
def portfolio_html (d : Document) : String :=
  let skills_spans := String.join (d.skills.map (fun skill =>
    "<span class=\"px-4 py-2 bg-gray-700 text-blue-300 rounded-full text-sm font-medium shadow-md\">" ++ skill ++ "</span>"))
  let project_cards := String.join (d.portfolio.map (fun proj =>
    "\n                    <div class=\"p-6 bg-[#161b22] border border-gray-700 rounded-xl\">\n                        <h3 class=\"text-xl font-semibold text-blue-400 mb-2\">" ++ proj.name ++ "</h3>\n                        <p class=\"text-gray-400 text-sm mb-4\">" ++ proj.description ++ "</p>\n                        <a href=\"" ++ proj.link ++ "\" target=\"_blank\" class=\"inline-block text-sm font-medium text-blue-500 hover:text-blue-400 transition duration-200 flex items-center\">\n                            View Project\n                            <span class=\"ml-1\">→</span>\n                        </a>\n                    </div>\n                "))
  let education_cards := String.join (d.education.map (fun edu =>
    "\n                    <div class=\"p-4 bg-[#161b22] border border-gray-700 rounded-lg\">\n                        <div class=\"flex justify-between items-center mb-1\">\n                            <h3 class=\"text-lg font-semibold text-gray-200\">" ++ edu.degree ++ "</h3>\n                            <span class=\"text-sm text-gray-500\">" ++ edu.dates ++ "</span>\n                        </div>\n                        <p class=\"text-md text-gray-400\">" ++ edu.institution ++ "</p>\n                    </div>\n                "))
  "<!DOCTYPE html>\n<html lang=\"en\">\n<head>\n    <meta charset=\"UTF-8\">\n    <meta name=\"viewport\" content=\"width=device-width, initial-scale=1.0\">\n    <title>"
    ++ (if d.personal.name = "" then "Student" else d.personal.name)
    ++ " Projects Portfolio</title>\n    <script src=\"https://cdn.tailwindcss.com\"></script>\n    <link href=\"https://fonts.googleapis.com/css2?family=Inter:wght@100..900&display=swap\" rel=\"stylesheet\">\n    <style>\n        body \x7b\n            font-family: \x27Inter\x27, sans-serif;\n            background-color: #0d1117; /* Dark background */\n        \x7d\n        .section-title \x7b\n            position: relative;\n            padding-bottom: 0.5rem;\n            margin-bottom: 1.5rem;\n        \x7d\n        .section-title::after \x7b\n            content: \x27\x27;\n            position: absolute;\n            left: 0;\n            bottom: 0;\n            height: 3px;\n            width: 50px;\n            background-color: #2563eb; /* Blue accent */\n            border-radius: 9999px;\n        \x7d\n    </style>\n</head>\n<body class=\"text-gray-200\">\n    <div id=\"app\" class=\"max-w-4xl mx-auto p-4 sm:p-8 space-y-12\">\n        <header id=\"header\" class=\"text-center p-6 bg-[#161b22] rounded-xl shadow-2xl\">\n            <h1 class=\"text-5xl font-extrabold text-blue-400 mb-2\">"
    ++ d.personal.name
    ++ "</h1>\n            <p class=\"text-xl text-gray-400 mb-4\">Aspiring AI & Cloud Developer</p>\n            <div class=\"flex flex-wrap justify-center space-x-4 text-sm\">\n                <a href=\"mailto:"
    ++ d.personal.email
    ++ "\" class=\"text-blue-400 hover:text-blue-300 transition duration-200\">📧 "
    ++ d.personal.email
    ++ "</a>\n                <a href=\""
    ++ d.personal.linkedin
    ++ "\" target=\"_blank\" class=\"text-blue-400 hover:text-blue-300 transition duration-200\">🔗 LinkedIn</a>\n            </div>\n        </header>\n\n        <section id=\"about\">\n            <h2 class=\"text-3xl font-bold text-gray-100 section-title\">About Me</h2>\n            <p class=\"text-lg leading-relaxed text-gray-400\">"
    ++ d.summary
    ++ "</p>\n        </section>\n\n        <section id=\"skills\">\n            <h2 class=\"text-3xl font-bold text-gray-100 section-title\">Core Skills</h2>\n            <div class=\"flex flex-wrap gap-3\">\n                "
    ++ skills_spans
    ++ "\n            </div>\n        </section>\n\n        <section id=\"projects\">\n            <h2 class=\"text-3xl font-bold text-gray-100 section-title\">Projects</h2>\n            <div class=\"grid grid-cols-1 md:grid-cols-2 gap-6\">\n                "
    ++ project_cards
    ++ "\n            </div>\n        </section>\n        \n        <section id=\"education\">\n            <h2 class=\"text-3xl font-bold text-gray-100 section-title\">Education</h2>\n            <div class=\"space-y-4\">\n                "
    ++ education_cards
    ++ "\n            </div>\n        </section>\n\n        <footer class=\"text-center text-sm text-gray-500 pt-6 border-t border-gray-700\">\n            <p>&copy; 2025 "
    ++ d.personal.name
    ++ ". Built with Insta Repo.</p>\n        </footer>\n    </div>\n</body>\n</html>"

/-- The slice of st.session_state the compilers touch: the document, the
cached portfolio page (st.session_state.generated_html) and the theme. -/
structure Session where
  data : Document
  generated_html : String
  theme : String
deriving DecidableEq

/-- generate_portfolio_html (lines 395-490): recomputes the portfolio page
from the current document and stores it in generated_html; the document
itself is only read. -/
def generate_portfolio_html (s : Session) : Session :=
  { s with generated_html := portfolio_html s.data }

/-! ## Concrete instances used by witnesses and counterexamples -/

/-- A generation function that always returns the same result string,
standing for one fixed service response. -/
def const_gen (r : String) : String → String → String := fun _ _ => r

/-- A small concrete document used by witnesses. -/
def sample_doc : Document :=
  { personal := { name := "Jane Doe", email := "jane@doe.dev", phone := "555-0100", linkedin := "https://linkedin.com/in/janedoe" }
    summary := "Motivated engineer."
    education := [{ id := 1, institution := "State University", degree := "B.Sc in CS", dates := "2020 - 2024" }]
    experience := [{ id := 1, title := "Developer", company := "Acme", dates := "2024", bullets := "built things\nshipped things" },
                   { id := 2, title := "QA", company := "Beta", dates := "2023", bullets := "tested things" }]
    skills := ["Python", "SQL"]
    portfolio := [{ id := 1, name := "Builder", link := "https://example.com", description := "A build tool." },
                  { id := 2, name := "Empty", link := "https://example.org", description := "" }]
    cover_letter_inputs := { company := "Acme", title := "Engineer" }
    cover_letter_draft := "old draft" }

/-- An attempt oracle that is rate limited twice and then succeeds. -/
def c2_oracle : Nat → CallOutcome :=
  fun k => if k < 2 then CallOutcome.rateLimited else CallOutcome.success "  refined text  "

/-- An attempt oracle that always rate limits. -/
def c2_oracle_rl : Nat → CallOutcome := fun _ => CallOutcome.rateLimited

/-- An attempt oracle whose first attempt succeeds with a response whose
trimmed text begins with Error. -/
def c10_oracle : Nat → CallOutcome :=
  fun _ => CallOutcome.success "  Error: I cannot fulfill this request.  "

/-! ## Lemmas about the generation client -/

/-- Unfolding: a successful attempt returns the trimmed text. -/
theorem genAttempts_success (oracle : Nat → CallOutcome) (a : Nat) (t : String)
    (h : oracle a = CallOutcome.success t) : genAttempts oracle a = (py_strip t, a + 1) := by
  rw [genAttempts.eq_def, h]

/-- Unfolding: a rate-limited attempt before the last one retries. -/
theorem genAttempts_step (oracle : Nat → CallOutcome) (a : Nat) (ha : a < 4)
    (h : oracle a = CallOutcome.rateLimited) :
    genAttempts oracle a = genAttempts oracle (a + 1) := by
  rw [genAttempts.eq_def, h, dif_pos (show a < MAX_RETRIES - 1 by simp only [MAX_RETRIES]; omega)]

/-- Unfolding: a rate-limited fifth attempt is terminal. -/
theorem genAttempts_last (oracle : Nat → CallOutcome)
    (h : oracle 4 = CallOutcome.rateLimited) :
    genAttempts oracle 4 = (connect_error, 5) := by
  rw [genAttempts.eq_def, h, dif_neg (show ¬ (4 < MAX_RETRIES - 1) by simp [MAX_RETRIES])]

/-- Unfolding: a non-rate-limited APIError is terminal. -/
theorem genAttempts_apiError (oracle : Nat → CallOutcome) (a : Nat)
    (h : oracle a = CallOutcome.apiError) : genAttempts oracle a = (connect_error, a + 1) := by
  rw [genAttempts.eq_def, h]

/-- Unfolding: a non-APIError exception is terminal. -/
theorem genAttempts_otherError (oracle : Nat → CallOutcome) (a : Nat)
    (h : oracle a = CallOutcome.otherError) : genAttempts oracle a = (unexpected_error, a + 1) := by
  rw [genAttempts.eq_def, h]

/-- Skipping a run of rate-limited attempts: if every attempt from a up to
(excluding) N is rate limited and N is at most the last attempt index, the
loop state at a equals the loop state at N. -/
theorem genAttempts_skip (oracle : Nat → CallOutcome) :
    ∀ N, N ≤ 4 → ∀ a, a ≤ N →
      (∀ k, a ≤ k → k < N → oracle k = CallOutcome.rateLimited) →
      genAttempts oracle a = genAttempts oracle N := by
  intro N
  induction N with
  | zero =>
    intro _ a ha _
    have : a = 0 := Nat.le_zero.mp ha
    subst this; rfl
  | succ n ih =>
    intro hN a ha hall
    rcases Nat.lt_or_ge a (n + 1) with hlt | hge
    · have ha' : a ≤ n := Nat.lt_succ_iff.mp hlt
      have h1 : genAttempts oracle a = genAttempts oracle n :=
        ih (by omega) a ha' (fun k hk1 hk2 => hall k hk1 (by omega))
      have h2 : genAttempts oracle n = genAttempts oracle (n + 1) :=
        genAttempts_step oracle n (by omega) (hall n ha' (by omega))
      rw [h1, h2]
    · have : a = n + 1 := by omega
      subst this; rfl

/-- The loop never issues more than five attempts. -/
theorem genAttempts_le_five (oracle : Nat → CallOutcome) :
    ∀ d a, 4 - a ≤ d → a ≤ 4 → (genAttempts oracle a).2 ≤ 5 := by
  intro d
  induction d with
  | zero =>
    intro a h1 h2
    have ha : a = 4 := by omega
    subst ha
    cases h : oracle 4 with
    | success t => rw [genAttempts_success oracle 4 t h]
    | rateLimited => rw [genAttempts_last oracle h]
    | apiError => rw [genAttempts_apiError oracle 4 h]
    | otherError => rw [genAttempts_otherError oracle 4 h]
  | succ n ih =>
    intro a h1 h2
    cases h : oracle a with
    | success t => rw [genAttempts_success oracle a t h]; omega
    | rateLimited =>
      by_cases hc : a < 4
      · rw [genAttempts_step oracle a hc h]
        exact ih (a + 1) (by omega) (by omega)
      · have ha : a = 4 := by omega
        subst ha
        rw [genAttempts_last oracle h]
    | apiError => rw [genAttempts_apiError oracle a h]; omega
    | otherError => rw [genAttempts_otherError oracle a h]; omega

/-! ## Claims about the generation client -/

/-- C2: the Generation Client makes at most 5 attempts; only rate-limited
failures are retried; a run of N < 5 rate limits followed by a success
returns that success after N + 1 attempts; five consecutive rate limits
issue exactly 5 attempts and return the terminal error; any other failure
after a run of rate limits is terminal on its first occurrence. -/
theorem generation_client_retry_policy (oracle : Nat → CallOutcome) (p s : String) :
    (∀ b : Bool, (generate_content_with_ai b oracle p s).2 ≤ 5)
    ∧ (∀ N t, N < 5 → (∀ k, k < N → oracle k = CallOutcome.rateLimited) →
        oracle N = CallOutcome.success t →
        generate_content_with_ai true oracle p s = (py_strip t, N + 1))
    ∧ ((∀ k, k < 5 → oracle k = CallOutcome.rateLimited) →
        generate_content_with_ai true oracle p s = (connect_error, 5))
    ∧ (∀ N, N < 5 → (∀ k, k < N → oracle k = CallOutcome.rateLimited) →
        (oracle N = CallOutcome.apiError ∨ oracle N = CallOutcome.otherError) →
        (generate_content_with_ai true oracle p s).2 = N + 1
        ∧ py_startswith (generate_content_with_ai true oracle p s).1 "Error" = true) := by
  refine ⟨?_, ?_, ?_, ?_⟩
  · intro b
    cases b with
    | false => simp [generate_content_with_ai]
    | true =>
      simp only [generate_content_with_ai, if_pos]
      exact genAttempts_le_five oracle 4 0 (by omega) (by omega)
  · intro N t hN hall hsucc
    simp only [generate_content_with_ai, if_pos]
    rw [genAttempts_skip oracle N (by omega) 0 (by omega) (fun k _ hk2 => hall k hk2)]
    exact genAttempts_success oracle N t hsucc
  · intro hall
    simp only [generate_content_with_ai, if_pos]
    rw [genAttempts_skip oracle 4 (by omega) 0 (by omega) (fun k _ hk2 => hall k (by omega))]
    exact genAttempts_last oracle (hall 4 (by omega))
  · intro N hN hall herr
    have hskip : genAttempts oracle 0 = genAttempts oracle N :=
      genAttempts_skip oracle N (by omega) 0 (by omega) (fun k _ hk2 => hall k hk2)
    rcases herr with h | h
    · simp only [generate_content_with_ai, if_pos, hskip, genAttempts_apiError oracle N h]
      exact ⟨trivial, by decide⟩
    · simp only [generate_content_with_ai, if_pos, hskip, genAttempts_otherError oracle N h]
      exact ⟨trivial, by decide⟩

/-- C2 witness: two rate limits then a success yield the trimmed success
text after three attempts, and five rate limits yield the terminal error
after exactly five attempts. -/
theorem generation_client_retry_policy_witness :
    generate_content_with_ai true c2_oracle "p" "s" = ("refined text", 3)
    ∧ generate_content_with_ai true c2_oracle_rl "p" "s" = (connect_error, 5) := by
  constructor
  · have h := (generation_client_retry_policy c2_oracle "p" "s").2.1 2 "  refined text  "
      (by omega) (fun k hk => by simp [c2_oracle, hk]) (by rfl)
    exact h.trans (by rfl)
  · exact (generation_client_retry_policy c2_oracle_rl "p" "s").2.2.1 (fun k _ => rfl)

/-! ## Lemmas about entry lookup and per-entry replacement -/

/-- In a list whose ids are duplicate-free, the first entry found with the
id of the entry at position k is the entry at position k itself. -/
theorem find_first_of_nodup {α : Type} (idf : α → Nat) :
    ∀ (l : List α) (k : Nat) (hk : k < l.length),
      (l.map idf).Nodup →
      l.find? (fun e => idf e == idf (l.get ⟨k, hk⟩)) = some (l.get ⟨k, hk⟩) := by
  intro l
  induction l with
  | nil => intro k hk; exact absurd hk (by simp)
  | cons a t ih =>
    intro k hk hnd
    have hhead : idf a ∉ t.map idf := (List.nodup_cons.mp (by simpa using hnd)).1
    have htail : (t.map idf).Nodup := (List.nodup_cons.mp (by simpa using hnd)).2
    cases k with
    | zero => simp [List.find?]
    | succ j =>
      have hj : j < t.length := by simpa using hk
      have hget : (a :: t).get ⟨j + 1, hk⟩ = t.get ⟨j, hj⟩ := rfl
      rw [hget]
      have hne : ¬ (idf a == idf (t.get ⟨j, hj⟩)) = true := by
        have hmem : idf (t.get ⟨j, hj⟩) ∈ t.map idf :=
          List.mem_map_of_mem idf (t.get_mem j hj)
        simp only [beq_iff_eq]
        intro hEq
        rw [hEq] at hhead
        exact hhead hmem
      have hstep : List.find? (fun e => idf e == idf (t.get ⟨j, hj⟩)) (a :: t)
          = List.find? (fun e => idf e == idf (t.get ⟨j, hj⟩)) t :=
        List.find?_cons_of_neg t hne
      rw [hstep, ih j hj htail]

/-- In a list whose ids are duplicate-free, rewriting every entry that
matches the id of the entry at position k replaces exactly position k. -/
theorem map_ite_eq_set {α : Type} (idf : α → Nat) (g : α → α) :
    ∀ (l : List α) (k : Nat) (hk : k < l.length),
      (l.map idf).Nodup →
      l.map (fun e => if idf e == idf (l.get ⟨k, hk⟩) then g e else e)
        = l.set k (g (l.get ⟨k, hk⟩)) := by
  intro l
  induction l with
  | nil => intro k hk; exact absurd hk (by simp)
  | cons a t ih =>
    intro k hk hnd
    have hhead : idf a ∉ t.map idf := (List.nodup_cons.mp (by simpa using hnd)).1
    have htail : (t.map idf).Nodup := (List.nodup_cons.mp (by simpa using hnd)).2
    cases k with
    | zero =>
      simp only [List.get, List.map_cons, List.set]
      rw [if_pos (by simp)]
      congr 1
      have : ∀ e ∈ t, (if idf e == idf a then g e else e) = e := by
        intro e he
        rw [if_neg]
        simp only [beq_iff_eq]
        intro hEq
        rw [← hEq] at hhead
        exact hhead (List.mem_map_of_mem idf he)
      rw [List.map_congr_left this, List.map_id']
    | succ j =>
      have hj : j < t.length := by simpa using hk
      have hget : (a :: t).get ⟨j + 1, hk⟩ = t.get ⟨j, hj⟩ := rfl
      rw [hget]
      have hne : ¬ (idf a == idf (t.get ⟨j, hj⟩)) = true := by
        simp only [beq_iff_eq]
        intro hEq
        rw [hEq] at hhead
        exact hhead (List.mem_map_of_mem idf (t.get_mem j hj))
      rw [List.map_cons, List.set_cons_succ, if_neg hne, ih j hj htail]

/-- Specialization of find_first_of_nodup to experience entries, in the
syntactic form used by handle_refine_bullets_experience. -/
theorem find_first_experience (l : List ExperienceEntry) (k : Nat) (hk : k < l.length)
    (i : Nat) (hi : (l.get ⟨k, hk⟩).id = i) (hnd : (l.map (fun e => e.id)).Nodup) :
    l.find? (fun e => e.id == i) = some (l.get ⟨k, hk⟩) := by
  subst hi
  exact find_first_of_nodup (fun e => e.id) l k hk hnd

/-- Specialization of find_first_of_nodup to portfolio entries. -/
theorem find_first_portfolio (l : List PortfolioEntry) (k : Nat) (hk : k < l.length)
    (i : Nat) (hi : (l.get ⟨k, hk⟩).id = i) (hnd : (l.map (fun p => p.id)).Nodup) :
    l.find? (fun p => p.id == i) = some (l.get ⟨k, hk⟩) := by
  subst hi
  exact find_first_of_nodup (fun p => p.id) l k hk hnd

/-- Specialization of map_ite_eq_set to the bullets replacement of
handle_refine_bullets_experience. -/
theorem map_set_experience (l : List ExperienceEntry) (k : Nat) (hk : k < l.length)
    (i : Nat) (hi : (l.get ⟨k, hk⟩).id = i) (hnd : (l.map (fun e => e.id)).Nodup)
    (r : String) :
    l.map (fun e => if e.id == i then { e with bullets := r } else e)
      = l.set k { l.get ⟨k, hk⟩ with bullets := r } := by
  subst hi
  exact map_ite_eq_set (fun e => e.id) (fun e => { e with bullets := r }) l k hk hnd

/-- Specialization of map_ite_eq_set to the description replacement of
handle_refine_bullets_portfolio. -/
theorem map_set_portfolio (l : List PortfolioEntry) (k : Nat) (hk : k < l.length)
    (i : Nat) (hi : (l.get ⟨k, hk⟩).id = i) (hnd : (l.map (fun p => p.id)).Nodup)
    (r : String) :
    l.map (fun p => if p.id == i then { p with description := r } else p)
      = l.set k { l.get ⟨k, hk⟩ with description := r } := by
  subst hi
  exact map_ite_eq_set (fun p => p.id) (fun p => { p with description := r }) l k hk hnd

/-- Unfolding of handle_refine_bullets_experience when the lookup finds an
entry. -/
theorem handle_refine_exp_found (gen : String → String → String) (doc : Document)
    (id : Nat) (item : ExperienceEntry)
    (hfind : doc.experience.find? (fun e => e.id == id) = some item) :
    handle_refine_bullets_experience gen doc id =
      (if item.bullets = "" then { doc := doc, warned := true, calls := 0 }
       else if py_startswith (gen (refine_experience_user_prompt item) refine_experience_system_instruction) "Error" then
         { doc := doc, warned := false, calls := 1 }
       else
         { doc := { doc with experience :=
             doc.experience.map (fun e => if e.id == id then { e with bullets := gen (refine_experience_user_prompt item) refine_experience_system_instruction } else e) }
           warned := false, calls := 1 }) := by
  unfold handle_refine_bullets_experience
  rw [hfind]

/-- Unfolding of handle_refine_bullets_experience when the lookup fails. -/
theorem handle_refine_exp_none (gen : String → String → String) (doc : Document)
    (id : Nat) (hfind : doc.experience.find? (fun e => e.id == id) = none) :
    handle_refine_bullets_experience gen doc id = { doc := doc, warned := true, calls := 0 } := by
  unfold handle_refine_bullets_experience
  rw [hfind]

/-- Unfolding of handle_refine_bullets_portfolio when the lookup finds an
entry. -/
theorem handle_refine_port_found (gen : String → String → String) (doc : Document)
    (id : Nat) (item : PortfolioEntry)
    (hfind : doc.portfolio.find? (fun p => p.id == id) = some item) :
    handle_refine_bullets_portfolio gen doc id =
      (if item.description = "" then { doc := doc, warned := true, calls := 0 }
       else if py_startswith (gen (refine_portfolio_user_prompt item) refine_portfolio_system_instruction) "Error" then
         { doc := doc, warned := false, calls := 1 }
       else
         { doc := { doc with portfolio :=
             doc.portfolio.map (fun p => if p.id == id then { p with description := gen (refine_portfolio_user_prompt item) refine_portfolio_system_instruction } else p) }
           warned := false, calls := 1 }) := by
  unfold handle_refine_bullets_portfolio
  rw [hfind]

/-- Unfolding of handle_refine_bullets_portfolio when the lookup fails. -/
theorem handle_refine_port_none (gen : String → String → String) (doc : Document)
    (id : Nat) (hfind : doc.portfolio.find? (fun p => p.id == id) = none) :
    handle_refine_bullets_portfolio gen doc id = { doc := doc, warned := true, calls := 0 } := by
  unfold handle_refine_bullets_portfolio
  rw [hfind]

/-! ## Claims about the refinement handlers -/

/-- C4: on a non-error result, the refinement merge replaces the bullets
(resp. description) of exactly the entry at the position holding the given
id — expressed as List.set at that position with only that field changed —
leaving order, every other entry and every other document section
untouched; an id no entry holds is a no-op. The duplicate-free-ids
hypothesis is the documented model invariant. -/
theorem refine_merge_replaces_exactly_matching (gen : String → String → String) (r : String)
    (hgen : ∀ p s, gen p s = r) (hr : py_startswith r "Error" = false) (doc : Document) :
    (∀ id k (hk : k < doc.experience.length),
       (doc.experience.map (fun e => e.id)).Nodup →
       (doc.experience.get ⟨k, hk⟩).id = id →
       (doc.experience.get ⟨k, hk⟩).bullets ≠ "" →
       (handle_refine_bullets_experience gen doc id).doc
         = { doc with experience :=
             doc.experience.set k { doc.experience.get ⟨k, hk⟩ with bullets := r } })
    ∧ (∀ id, (∀ e ∈ doc.experience, e.id ≠ id) →
        (handle_refine_bullets_experience gen doc id).doc = doc)
    ∧ (∀ id k (hk : k < doc.portfolio.length),
       (doc.portfolio.map (fun p => p.id)).Nodup →
       (doc.portfolio.get ⟨k, hk⟩).id = id →
       (doc.portfolio.get ⟨k, hk⟩).description ≠ "" →
       (handle_refine_bullets_portfolio gen doc id).doc
         = { doc with portfolio :=
             doc.portfolio.set k { doc.portfolio.get ⟨k, hk⟩ with description := r } })
    ∧ (∀ id, (∀ p ∈ doc.portfolio, p.id ≠ id) →
        (handle_refine_bullets_portfolio gen doc id).doc = doc) := by
  refine ⟨?_, ?_, ?_, ?_⟩
  · intro id k hk hnd hid hbul
    rw [handle_refine_exp_found gen doc id (doc.experience.get ⟨k, hk⟩)
        (find_first_experience doc.experience k hk id hid hnd),
      if_neg hbul, hgen, if_neg (by rw [hr]; exact Bool.false_ne_true)]
    dsimp only
    rw [map_set_experience doc.experience k hk id hid hnd r]
  · intro id hnone
    have hfind : doc.experience.find? (fun e => e.id == id) = none := by
      rw [List.find?_eq_none]
      intro e he
      simpa using hnone e he
    rw [handle_refine_exp_none gen doc id hfind]
  · intro id k hk hnd hid hdesc
    rw [handle_refine_port_found gen doc id (doc.portfolio.get ⟨k, hk⟩)
        (find_first_portfolio doc.portfolio k hk id hid hnd),
      if_neg hdesc, hgen, if_neg (by rw [hr]; exact Bool.false_ne_true)]
    dsimp only
    rw [map_set_portfolio doc.portfolio k hk id hid hnd r]
  · intro id hnone
    have hfind : doc.portfolio.find? (fun p => p.id == id) = none := by
      rw [List.find?_eq_none]
      intro p hp
      simpa using hnone p hp
    rw [handle_refine_port_none gen doc id hfind]

/-- C4 witness: refining experience entry 1 of the sample document replaces
exactly that entry's bullets, and an unmatched id leaves the document as it
was. -/
theorem refine_merge_replaces_exactly_matching_witness :
    (handle_refine_bullets_experience (const_gen "Did a thing") sample_doc 1).doc
      = { sample_doc with experience :=
          [{ id := 1, title := "Developer", company := "Acme", dates := "2024", bullets := "Did a thing" },
           { id := 2, title := "QA", company := "Beta", dates := "2023", bullets := "tested things" }] }
    ∧ (handle_refine_bullets_experience (const_gen "Did a thing") sample_doc 99).doc = sample_doc := by
  constructor
  · have h := (refine_merge_replaces_exactly_matching (const_gen "Did a thing") "Did a thing"
      (fun _ _ => rfl) (by decide) sample_doc).1 1 0 (by decide) (by decide) rfl (by decide)
    exact h.trans (by decide)
  · exact (refine_merge_replaces_exactly_matching (const_gen "Did a thing") "Did a thing"
      (fun _ _ => rfl) (by decide) sample_doc).2.1 99 (by decide)

/-- C5: when the looked-up entry has an empty raw text field, the handler
warns (nothing to refine), issues zero generation calls, and leaves the
document untouched. -/
theorem refine_empty_raw_is_noop (gen : String → String → String) (doc : Document) :
    (∀ id k (hk : k < doc.experience.length),
       (doc.experience.map (fun e => e.id)).Nodup →
       (doc.experience.get ⟨k, hk⟩).id = id →
       (doc.experience.get ⟨k, hk⟩).bullets = "" →
       handle_refine_bullets_experience gen doc id
         = { doc := doc, warned := true, calls := 0 })
    ∧ (∀ id k (hk : k < doc.portfolio.length),
       (doc.portfolio.map (fun p => p.id)).Nodup →
       (doc.portfolio.get ⟨k, hk⟩).id = id →
       (doc.portfolio.get ⟨k, hk⟩).description = "" →
       handle_refine_bullets_portfolio gen doc id
         = { doc := doc, warned := true, calls := 0 }) := by
  constructor
  · intro id k hk hnd hid hbul
    rw [handle_refine_exp_found gen doc id (doc.experience.get ⟨k, hk⟩)
        (find_first_experience doc.experience k hk id hid hnd),
      if_pos hbul]
  · intro id k hk hnd hid hdesc
    rw [handle_refine_port_found gen doc id (doc.portfolio.get ⟨k, hk⟩)
        (find_first_portfolio doc.portfolio k hk id hid hnd),
      if_pos hdesc]

/-- C5 witness: portfolio entry 2 of the sample document has an empty
description; requesting its refinement warns, calls the service zero times
and returns the document unchanged. -/
theorem refine_empty_raw_is_noop_witness :
    handle_refine_bullets_portfolio (const_gen "anything") sample_doc 2
      = { doc := sample_doc, warned := true, calls := 0 } :=
  (refine_empty_raw_is_noop (const_gen "anything") sample_doc).2 2 1 (by decide)
    (by decide) rfl rfl

/-! ## Claims about the skills merge and the cover-letter validation -/

/-- Deduplicating a list does not change the finite set of its elements. -/
theorem dedup_toFinset_eq {α : Type} [DecidableEq α] (l : List α) :
    l.dedup.toFinset = l.toFinset :=
  List.toFinset.ext (fun _ => List.mem_dedup)

/-- The empty string never survives parse_skills, because parsing filters
out the tokens that are empty after trimming. -/
theorem empty_not_mem_parse_skills (r : String) : "" ∉ parse_skills r := by
  intro hmem
  unfold parse_skills at hmem
  rw [List.mem_filter] at hmem
  simpa using hmem.2

/-- C3: on a non-error result, the merged skills are exactly the set union
of the old skills and the parsed comma tokens (trimmed, empties dropped),
with no duplicates, no empty string, and at least as many skills as
before. -/
theorem merge_skills_is_union (gen : String → String → String) (doc : Document) (r : String)
    (hr : gen (suggest_skills_user_prompt doc) suggest_skills_system_instruction = r)
    (hne : py_startswith r "Error" = false)
    (hnd : doc.skills.Nodup) (hno : "" ∉ doc.skills) :
    (handle_suggest_skills gen doc).skills.toFinset
        = doc.skills.toFinset ∪ (parse_skills r).toFinset
    ∧ (handle_suggest_skills gen doc).skills.Nodup
    ∧ "" ∉ (handle_suggest_skills gen doc).skills
    ∧ doc.skills.length ≤ (handle_suggest_skills gen doc).skills.length := by
  have hskills : (handle_suggest_skills gen doc).skills
      = (doc.skills ++ parse_skills r).dedup := by
    unfold handle_suggest_skills
    rw [hr]
    simp [hne]
  refine ⟨?_, ?_, ?_, ?_⟩
  · rw [hskills, dedup_toFinset_eq, List.toFinset_append]
  · rw [hskills]
    exact List.nodup_dedup _
  · rw [hskills]
    intro hmem
    rw [List.mem_dedup, List.mem_append] at hmem
    rcases hmem with h | h
    · exact hno h
    · exact empty_not_mem_parse_skills r h
  · rw [hskills]
    calc doc.skills.length = doc.skills.toFinset.card :=
          (List.toFinset_card_of_nodup hnd).symm
      _ ≤ (doc.skills ++ parse_skills r).toFinset.card := by
          refine Finset.card_le_card ?_
          rw [List.toFinset_append]
          exact Finset.subset_union_left
      _ = (doc.skills ++ parse_skills r).dedup.length := List.card_toFinset _

/-- C3 witness: merging a concrete suggestion (with stray spaces and an
empty token) into the sample skills gives exactly the union, duplicate-free
and empty-free, at least as large as before. -/
theorem merge_skills_is_union_witness :
    (handle_suggest_skills (const_gen "Kubernetes , SQL,, DevOps") sample_doc).skills.toFinset
        = sample_doc.skills.toFinset ∪ (parse_skills "Kubernetes , SQL,, DevOps").toFinset
    ∧ (handle_suggest_skills (const_gen "Kubernetes , SQL,, DevOps") sample_doc).skills.Nodup
    ∧ "" ∉ (handle_suggest_skills (const_gen "Kubernetes , SQL,, DevOps") sample_doc).skills
    ∧ sample_doc.skills.length
        ≤ (handle_suggest_skills (const_gen "Kubernetes , SQL,, DevOps") sample_doc).skills.length :=
  merge_skills_is_union (const_gen "Kubernetes , SQL,, DevOps") sample_doc
    "Kubernetes , SQL,, DevOps" rfl (by decide) (by decide) (by decide)

/-- C6: with an empty target company or target title, the cover-letter
handler issues zero service calls and returns the document with only the
draft changed, set to the user-facing validation message. -/
theorem cover_letter_validation_short_circuit (gen : String → String → String)
    (doc : Document)
    (h : doc.cover_letter_inputs.company = "" ∨ doc.cover_letter_inputs.title = "") :
    handle_generate_cover_letter gen doc
      = ({ doc with cover_letter_draft := cover_letter_validation_message }, 0) := by
  unfold handle_generate_cover_letter
  rw [if_pos h]

/-- C6 witness: the initial document has an empty target company, so the
handler stores the validation message and makes zero calls. -/
theorem cover_letter_validation_short_circuit_witness :
    handle_generate_cover_letter (const_gen "whatever") initial_data
      = ({ initial_data with cover_letter_draft := cover_letter_validation_message }, 0) :=
  cover_letter_validation_short_circuit (const_gen "whatever") initial_data (Or.inl rfl)

/-! ## Error-marker classification (shared helper, then C1 and C10) -/

/-- Shared helper: when every generation result is error-marked, the skills
and both refinement handlers leave the document untouched, the summary
handler stores the result anyway, and the cover-letter handler (with
non-empty inputs) keeps the progress placeholder in the draft. -/
theorem handlers_on_error_results (gen : String → String → String)
    (hgen : ∀ p s, py_startswith (gen p s) "Error" = true) (doc : Document) :
    handle_suggest_skills gen doc = doc
    ∧ (∀ id, (handle_refine_bullets_experience gen doc id).doc = doc)
    ∧ (∀ id, (handle_refine_bullets_portfolio gen doc id).doc = doc)
    ∧ handle_generate_summary gen doc
        = { doc with summary := gen (summary_user_prompt doc) summary_system_instruction }
    ∧ (doc.cover_letter_inputs.company ≠ "" → doc.cover_letter_inputs.title ≠ "" →
        (handle_generate_cover_letter gen doc).1
          = { doc with cover_letter_draft := cover_letter_placeholder }) := by
  refine ⟨?_, ?_, ?_, rfl, ?_⟩
  · unfold handle_suggest_skills
    rw [if_pos (hgen _ _)]
  · intro id
    cases hfind : doc.experience.find? (fun e => e.id == id) with
    | none => rw [handle_refine_exp_none gen doc id hfind]
    | some item =>
      rw [handle_refine_exp_found gen doc id item hfind]
      by_cases hb : item.bullets = ""
      · rw [if_pos hb]
      · rw [if_neg hb, if_pos (hgen _ _)]
  · intro id
    cases hfind : doc.portfolio.find? (fun p => p.id == id) with
    | none => rw [handle_refine_port_none gen doc id hfind]
    | some item =>
      rw [handle_refine_port_found gen doc id item hfind]
      by_cases hb : item.description = ""
      · rw [if_pos hb]
      · rw [if_neg hb, if_pos (hgen _ _)]
  · intro hc ht
    unfold handle_generate_cover_letter
    rw [if_neg (by simp [hc, ht]), if_pos (hgen _ _)]

/-- C1 counterexample: an error result does change the Document on two
handlers: the summary handler overwrites the summary with the error text,
and the cover-letter handler leaves the draft at the progress placeholder,
different from its pre-request value; the result is error-marked. -/
theorem failed_generation_changes_document :
    py_startswith connect_error "Error" = true
    ∧ (handle_generate_summary (const_gen connect_error) initial_data).summary
        ≠ initial_data.summary
    ∧ (handle_generate_cover_letter (const_gen connect_error) sample_doc).1.cover_letter_draft
        ≠ sample_doc.cover_letter_draft := by
  refine ⟨by decide, by decide, by decide⟩

/-- C1 amended: on error results, the skills and refinement handlers leave
the Document unchanged; the summary handler stores the error text into the
summary field; and the cover-letter handler does not merge the error text
but leaves the draft at the progress placeholder it wrote before the
request. -/
theorem failed_generation_merge_policy (gen : String → String → String)
    (hgen : ∀ p s, py_startswith (gen p s) "Error" = true) (doc : Document) :
    handle_suggest_skills gen doc = doc
    ∧ (∀ id, (handle_refine_bullets_experience gen doc id).doc = doc)
    ∧ (∀ id, (handle_refine_bullets_portfolio gen doc id).doc = doc)
    ∧ handle_generate_summary gen doc
        = { doc with summary := gen (summary_user_prompt doc) summary_system_instruction }
    ∧ (doc.cover_letter_inputs.company ≠ "" → doc.cover_letter_inputs.title ≠ "" →
        (handle_generate_cover_letter gen doc).1
          = { doc with cover_letter_draft := cover_letter_placeholder }) :=
  handlers_on_error_results gen hgen doc

/-- C1 amended witness: with the terminal connection error as result, the
skills handler leaves the sample document unchanged and the summary handler
stores the error text. -/
theorem failed_generation_merge_policy_witness :
    handle_suggest_skills (const_gen connect_error) sample_doc = sample_doc
    ∧ handle_generate_summary (const_gen connect_error) sample_doc
        = { sample_doc with summary := connect_error } := by
  have h := failed_generation_merge_policy (const_gen connect_error)
    (fun _ _ => rfl) sample_doc
  exact ⟨h.1, h.2.2.2.1⟩

/-- C10: handlers classify a result as an error solely by the Error text
marker: a service call that succeeds on its first attempt but whose trimmed
response text begins with Error is discarded by the skills, refinement and
cover-letter handlers, while the summary handler stores it into the summary
unconditionally. -/
theorem error_marker_classification (oracle : Nat → CallOutcome) (t : String)
    (h0 : oracle 0 = CallOutcome.success t)
    (ht : py_startswith (py_strip t) "Error" = true) (doc : Document) :
    handle_suggest_skills (fun p s => (generate_content_with_ai true oracle p s).1) doc = doc
    ∧ (∀ id, (handle_refine_bullets_experience
        (fun p s => (generate_content_with_ai true oracle p s).1) doc id).doc = doc)
    ∧ (∀ id, (handle_refine_bullets_portfolio
        (fun p s => (generate_content_with_ai true oracle p s).1) doc id).doc = doc)
    ∧ (doc.cover_letter_inputs.company ≠ "" → doc.cover_letter_inputs.title ≠ "" →
        (handle_generate_cover_letter
          (fun p s => (generate_content_with_ai true oracle p s).1) doc).1.cover_letter_draft
          = cover_letter_placeholder)
    ∧ handle_generate_summary (fun p s => (generate_content_with_ai true oracle p s).1) doc
        = { doc with summary := py_strip t } := by
  have hres : ∀ p s : String, (generate_content_with_ai true oracle p s).1 = py_strip t := by
    intro p s
    unfold generate_content_with_ai
    rw [if_pos rfl, genAttempts_success oracle 0 t h0]
  have hgen : ∀ p s, py_startswith ((fun p s => (generate_content_with_ai true oracle p s).1) p s) "Error" = true := by
    intro p s
    show py_startswith (generate_content_with_ai true oracle p s).1 "Error" = true
    rw [hres p s]
    exact ht
  have h := handlers_on_error_results (fun p s => (generate_content_with_ai true oracle p s).1) hgen doc
  refine ⟨h.1, h.2.1, h.2.2.1, ?_, ?_⟩
  · intro hc htl
    rw [h.2.2.2.2 hc htl]
  · rw [h.2.2.2.1, hres]

/-- C10 witness: a first-attempt success whose trimmed text begins with
Error is discarded by the skills handler and stored by the summary
handler. -/
theorem error_marker_classification_witness :
    handle_suggest_skills
        (fun p s => (generate_content_with_ai true c10_oracle p s).1) sample_doc = sample_doc
    ∧ handle_generate_summary
        (fun p s => (generate_content_with_ai true c10_oracle p s).1) sample_doc
        = { sample_doc with summary := py_strip "  Error: I cannot fulfill this request.  " } := by
  have h := error_marker_classification c10_oracle "  Error: I cannot fulfill this request.  "
    rfl (by decide) sample_doc
  exact ⟨h.1, h.2.2.2.2⟩

/-! ## Claims about the entry id lifecycle -/

/-- Applying a concatenated operation sequence is applying the parts in
order. -/
theorem applyOps_append (p q : List EntryOp) :
    ∀ ids, applyOps ids (p ++ q) = applyOps (applyOps ids p) q := by
  induction p with
  | nil => intro ids; rfl
  | cons op rest ih => intro ids; exact ih (applyOp ids op)

/-- The clocks of a concatenated operation sequence. -/
theorem addClocks_append (p q : List EntryOp) :
    addClocks (p ++ q) = addClocks p ++ addClocks q := by
  induction p with
  | nil => rfl
  | cons op rest ih =>
    cases op with
    | add c => simp [addClocks, ih]
    | removeAt i => simp [addClocks, ih]

/-- Every id present after a sequence of operations was present initially
or was stamped by one of the add operations. -/
theorem mem_applyOps (x : Nat) : ∀ (ops : List EntryOp) (ids : List Nat),
    x ∈ applyOps ids ops → x ∈ ids ∨ x ∈ addClocks ops := by
  intro ops
  induction ops with
  | nil => intro ids h; exact Or.inl h
  | cons op rest ih =>
    intro ids h
    cases op with
    | add c =>
      rcases ih (ids ++ [c]) h with h1 | h1
      · rcases List.mem_append.mp h1 with h2 | h2
        · exact Or.inl h2
        · right
          simp only [addClocks, List.mem_cons]
          exact Or.inl (by simpa using h2)
      · right
        simp only [addClocks, List.mem_cons]
        exact Or.inr h1
    | removeAt i =>
      rcases ih (ids.eraseIdx i) h with h1 | h1
      · exact Or.inl ((ids.eraseIdx_sublist i).subset h1)
      · exact Or.inr h1

/-- Under pairwise-distinct fresh clocks, the ids stay duplicate-free. -/
theorem applyOps_nodup : ∀ (ops : List EntryOp) (ids : List Nat),
    ids.Nodup → (addClocks ops).Nodup → (∀ c ∈ addClocks ops, c ∉ ids) →
    (applyOps ids ops).Nodup := by
  intro ops
  induction ops with
  | nil => intro ids h _ _; exact h
  | cons op rest ih =>
    intro ids hnd hclk hfresh
    cases op with
    | add c =>
      have hc : c ∉ ids := hfresh c (by simp [addClocks])
      have hclk' : (addClocks rest).Nodup :=
        (List.nodup_cons.mp (by simpa [addClocks] using hclk)).2
      have hcnotin : c ∉ addClocks rest :=
        (List.nodup_cons.mp (by simpa [addClocks] using hclk)).1
      refine ih (ids ++ [c]) ?_ hclk' ?_
      · rw [List.nodup_append]
        exact ⟨hnd, List.nodup_singleton c, by simpa [List.disjoint_singleton] using hc⟩
      · intro x hx hmem
        rcases List.mem_append.mp hmem with h1 | h1
        · exact hfresh x (by simp [addClocks, hx]) h1
        · have hxc : x = c := by simpa using h1
          subst hxc
          exact hcnotin hx
    | removeAt i =>
      refine ih (ids.eraseIdx i) ((ids.eraseIdx_sublist i).nodup hnd)
        (by simpa [addClocks] using hclk) ?_
      intro x hx hmem
      exact hfresh x (by simpa [addClocks] using hx) ((ids.eraseIdx_sublist i).subset hmem)

/-- C7 counterexample: ids are raw clock readings, so two add operations
with the same reading (same time.time() result) give a reachable state with
duplicate ids, starting from the initial single entry of id 1. -/
theorem entry_id_uniqueness_counterexample :
    ¬ (applyOps [1] [EntryOp.add 5, EntryOp.add 5]).Nodup := by
  decide

/-- C7 amended: if the clock readings consumed by the add operations are
pairwise distinct and distinct from every initial id, then every reachable
state has duplicate-free ids; each operation only appends a new entry at
the end or erases one position, leaving all other ids unchanged; and an id
that has disappeared never reappears later in the trace. -/
theorem entry_id_lifecycle (ids0 : List Nat) (ops : List EntryOp)
    (hnd0 : ids0.Nodup) (hclk : (addClocks ops).Nodup)
    (hfresh : ∀ c ∈ addClocks ops, c ∉ ids0) :
    (applyOps ids0 ops).Nodup
    ∧ (∀ ids c, applyOp ids (EntryOp.add c) = ids ++ [c])
    ∧ (∀ ids i, applyOp ids (EntryOp.removeAt i) = ids.eraseIdx i)
    ∧ (∀ p q1 q2 x, ops = p ++ q1 ++ q2 →
        x ∈ applyOps ids0 p → x ∉ applyOps ids0 (p ++ q1) →
        x ∉ applyOps ids0 (p ++ q1 ++ q2)) := by
  refine ⟨applyOps_nodup ops ids0 hnd0 hclk hfresh, fun _ _ => rfl, fun _ _ => rfl, ?_⟩
  intro p q1 q2 x hops hxp hxq1 hxq2
  rw [applyOps_append (p ++ q1) q2] at hxq2
  rcases mem_applyOps x q2 (applyOps ids0 (p ++ q1)) hxq2 with h | h
  · exact hxq1 h
  · subst hops
    rw [addClocks_append, addClocks_append] at hclk hfresh
    rcases mem_applyOps x p ids0 hxp with h0 | h0
    · exact hfresh x (List.mem_append.mpr (Or.inr h)) h0
    · have hdisj := (List.nodup_append.mp hclk).2.2
      exact hdisj (List.mem_append.mpr (Or.inl h0)) h

/-- C7 amended witness: a concrete trace with distinct fresh clocks — add
7, remove index 0, add 9 from initial ids [1] — keeps ids duplicate-free,
and the removed id 1 does not reappear. -/
theorem entry_id_lifecycle_witness :
    (applyOps [1] [EntryOp.add 7, EntryOp.removeAt 0, EntryOp.add 9]).Nodup
    ∧ ¬ (1 : Nat) ∈ applyOps [1]
        ([EntryOp.add 7] ++ [EntryOp.removeAt 0] ++ [EntryOp.add 9]) := by
  have h := entry_id_lifecycle [1] [EntryOp.add 7, EntryOp.removeAt 0, EntryOp.add 9]
    (by decide) (by decide) (by decide)
  constructor
  · exact h.1
  · exact h.2.2.2 [EntryOp.add 7] [EntryOp.removeAt 0] [EntryOp.add 9] 1 rfl
      (by decide) (by decide)

/-! ## Claims about the compilers -/

/-- C8: the three compilations are pure projections of the document (and
theme): the plain-text and preview compilers are functions, so recompiling
without a mutation is byte-identical; regenerating the portfolio page
leaves the document and the theme untouched, is idempotent, and after
replacing the document reflects exactly the new document. -/
theorem compilation_deterministic_and_pure (d d2 : Document) (theme : String) (s : Session) :
    compile_resume_text d = compile_resume_text d
    ∧ render_preview d theme = render_preview d theme
    ∧ (generate_portfolio_html s).data = s.data
    ∧ (generate_portfolio_html s).theme = s.theme
    ∧ generate_portfolio_html (generate_portfolio_html s) = generate_portfolio_html s
    ∧ (generate_portfolio_html { s with data := d2 }).generated_html = portfolio_html d2 := by
  refine ⟨rfl, rfl, ?_, ?_, ?_, ?_⟩ <;> (unfold generate_portfolio_html; rfl)

/-- A sublist of the right part of an append is a sublist of the whole. -/
theorem sublist_skip_block {α : Type} (b : List α) {l1 l2 : List α} (h : List.Sublist l1 l2) :
    List.Sublist l1 (b ++ l2) :=
  h.trans (List.sublist_append_right b l2)

/-- C9: for any document named Jane Doe with skills Python and SQL, the
plain-text compilation emits the header line JANE DOE (the uppercased name)
and the line Technical Skills: Python, SQL, and the five section headers
appear in the fixed order summary, skills, portfolio (PROJECTS), experience,
education; the compiled string is the newline join of these lines,
stripped. -/
theorem compile_text_header_skills_order (d : Document)
    (hn : d.personal.name = "Jane Doe") (hs : d.skills = ["Python", "SQL"]) :
    compile_resume_text d = py_strip (String.intercalate "\n" (resumeLines d))
    ∧ "JANE DOE" ∈ resumeLines d
    ∧ "Technical Skills: Python, SQL" ∈ resumeLines d
    ∧ List.Sublist ["PROFESSIONAL SUMMARY", "SKILLS", "PROJECTS", "EXPERIENCE", "EDUCATION"]
        (resumeLines d) := by
  have hup : py_upper "Jane Doe" = "JANE DOE" := by decide
  have hts : "Technical Skills: " ++ String.intercalate ", " ["Python", "SQL"]
      = "Technical Skills: Python, SQL" := by decide
  refine ⟨rfl, ?_, ?_, ?_⟩
  · simp [resumeLines, hn, hup]
  · simp [resumeLines, hs, hts]
  · simp only [resumeLines, List.cons_append, List.nil_append, List.append_assoc]
    refine List.Sublist.cons _ (List.Sublist.cons _ (List.Sublist.cons _ (List.Sublist.cons _
      (List.Sublist.cons _ (List.Sublist.cons _ ?_)))))
    refine List.Sublist.cons₂ _ ?_
    refine List.Sublist.cons _ (List.Sublist.cons _ (List.Sublist.cons _ ?_))
    refine List.Sublist.cons₂ _ ?_
    refine List.Sublist.cons _ (List.Sublist.cons _ (List.Sublist.cons _ ?_))
    refine List.Sublist.cons₂ _ ?_
    refine List.Sublist.cons _ ?_
    refine sublist_skip_block _ ?_
    refine List.Sublist.cons _ ?_
    refine List.Sublist.cons₂ _ ?_
    refine List.Sublist.cons _ ?_
    refine sublist_skip_block _ ?_
    refine List.Sublist.cons _ ?_
    refine List.Sublist.cons₂ _ ?_
    exact List.nil_sublist _

/-- C9 witness: the sample document is named Jane Doe with skills Python
and SQL; its lines contain the two literal lines and the ordered section
headers. -/
theorem compile_text_header_skills_order_witness :
    "JANE DOE" ∈ resumeLines sample_doc
    ∧ "Technical Skills: Python, SQL" ∈ resumeLines sample_doc
    ∧ List.Sublist ["PROFESSIONAL SUMMARY", "SKILLS", "PROJECTS", "EXPERIENCE", "EDUCATION"]
        (resumeLines sample_doc) := by
  have h := compile_text_header_skills_order sample_doc rfl rfl
  exact ⟨h.2.1, h.2.2.1, h.2.2.2⟩

end InstaRepo
